import Mathlib

/-!
The program bot-whatsapp-bling: a shallow embedding of `src/index.js`.

The file embeds the catalog client (`buscarProdutosBling`), the outbound
messenger (`enviarMensagem`, `avisarOwner`), the text normaliser
(`normalizarTexto`), the intent chain (`processarMensagem`) and the
`POST /webhook` handler, and then states and proves properties of them.

JavaScript strings are Lean `String`s (sequences of Unicode scalar values).
State (`produtosCache`, `ultimaAtualizacao`) is passed explicitly, the
outcomes of `Date.now()`, `axios.get` and `axios.post` are inputs, and every
console line and HTTP request is recorded in an event trace.

The library functions of the JavaScript runtime whose behaviour rests on the
Unicode tables or on binary floating point (`toLowerCase`, `normalize`,
`parseInt`, `parseFloat`, `toFixed`, number printing) are the fields of a
`Runtime` record: general theorems hold for every runtime, and concrete
evaluations use `refRuntime`.
-/

namespace BotBling

/-! ## Strings -/

/-- Substring test on character lists: `kw` occurs contiguously in the list. -/
def isInfixOf (kw : List Char) : List Char → Bool
  | [] => kw.isEmpty
  | c :: cs => kw.isPrefixOf (c :: cs) || isInfixOf kw cs

/-- The method `String.prototype.includes`: `s.includes(kw)`. -/
def includes (s kw : String) : Bool := isInfixOf kw.data s.data

/-- White space and line terminators of ECMAScript, the characters removed by
`String.prototype.trim`. -/
def isWhiteSpace (c : Char) : Bool :=
  let n := c.toNat
  (9 ≤ n && n ≤ 13) || n == 0x20 || n == 0xA0 || n == 0x1680
    || (0x2000 ≤ n && n ≤ 0x200A) || n == 0x2028 || n == 0x2029
    || n == 0x202F || n == 0x205F || n == 0x3000 || n == 0xFEFF

/-- The method `String.prototype.trim`: drops white space at both ends. -/
def trim (s : String) : String :=
  ⟨((s.data.dropWhile isWhiteSpace).reverse.dropWhile isWhiteSpace).reverse⟩

/-- The character class `[U+0300-U+036F]` of the regular expression in
`normalizarTexto`. -/
def isCombiningMark (c : Char) : Bool := 0x300 ≤ c.toNat && c.toNat ≤ 0x36F

/-- The call `.replace(/[U+0300-U+036F]/g, '')`: deletes every code point of
the class. -/
def stripMarks (s : String) : String := ⟨s.data.filter fun c => !isCombiningMark c⟩

/-! ## The JavaScript runtime -/

/-- A number other than NaN, as read by `parseFloat`: the exact value
`mantissa * 10 ^ expoente` of the decimal literal, or an infinity. -/
inductive Numero
  | finito (mantissa : Int) (expoente : Int)
  | infinito (negativo : Bool)
  deriving DecidableEq, Repr

/-- The library functions of the JavaScript runtime used by the program.
`parseInt` and `parseFloat` return `none` for NaN. -/
structure Runtime where
  /-- The method `String.prototype.toLowerCase`. -/
  toLowerCase : String → String
  /-- The call `String.prototype.normalize('NFD')`. -/
  normalizeNFD : String → String
  /-- The function `parseInt(s)` (radix argument absent). -/
  parseInt : String → Option Int
  /-- The conversion of an integral number to a string, as in a template literal. -/
  numberToString : Int → String
  /-- The function `parseFloat(s)`. -/
  parseFloat : String → Option Numero
  /-- The call `x.toFixed(2)` on a number that is not NaN. -/
  toFixed2 : Numero → String

/-! ### A reference runtime

Used for concrete evaluations only. It follows ECMAScript on the repertoire
Basic Latin, Latin-1 Supplement and the combining marks U+0300..U+036F. -/

/-- Lower-casing of one character: A..Z and the capital letters of Latin-1
(U+00C0..U+00DE except the multiplication sign) move up by 32. -/
def refLowerChar (c : Char) : Char :=
  let n := c.toNat
  if (0x41 ≤ n && n ≤ 0x5A) || (0xC0 ≤ n && n ≤ 0xDE && n != 0xD7) then Char.ofNat (n + 32)
  else c

/-- Canonical decomposition of one Latin-1 letter: base letter and combining mark. -/
def refDecompose (c : Char) : List Char :=
  let n := c.toNat
  let marca (k : Nat) : Char :=
    Char.ofNat (match k with
      | 0 => 0x300 | 1 => 0x301 | 2 => 0x302 | 3 => 0x303 | 4 => 0x308 | _ => 0x30A)
  let vogal (base : Char) (k : Nat) : List Char := [base, marca k]
  if 0xC0 ≤ n && n ≤ 0xC5 then vogal 'A' (n - 0xC0)
  else if n == 0xC7 then ['C', Char.ofNat 0x327]
  else if 0xC8 ≤ n && n ≤ 0xCB then vogal 'E' (if n == 0xCB then 4 else n - 0xC8)
  else if 0xCC ≤ n && n ≤ 0xCF then vogal 'I' (if n == 0xCF then 4 else n - 0xCC)
  else if n == 0xD1 then vogal 'N' 3
  else if 0xD2 ≤ n && n ≤ 0xD6 then vogal 'O' (n - 0xD2)
  else if 0xD9 ≤ n && n ≤ 0xDC then vogal 'U' (if n == 0xDC then 4 else n - 0xD9)
  else if n == 0xDD then vogal 'Y' 1
  else if 0xE0 ≤ n && n ≤ 0xE5 then vogal 'a' (n - 0xE0)
  else if n == 0xE7 then ['c', Char.ofNat 0x327]
  else if 0xE8 ≤ n && n ≤ 0xEB then vogal 'e' (if n == 0xEB then 4 else n - 0xE8)
  else if 0xEC ≤ n && n ≤ 0xEF then vogal 'i' (if n == 0xEF then 4 else n - 0xEC)
  else if n == 0xF1 then vogal 'n' 3
  else if 0xF2 ≤ n && n ≤ 0xF6 then vogal 'o' (n - 0xF2)
  else if 0xF9 ≤ n && n ≤ 0xFC then vogal 'u' (if n == 0xFC then 4 else n - 0xF9)
  else if n == 0xFD then vogal 'y' 1
  else if n == 0xFF then vogal 'y' 4
  else [c]

/-- Value of a digit in the given radix, if the character is one. -/
def digitValue (radix : Nat) (c : Char) : Option Nat :=
  let n := c.toNat
  let v :=
    if 0x30 ≤ n && n ≤ 0x39 then n - 0x30
    else if 0x61 ≤ n && n ≤ 0x7A then n - 0x61 + 10
    else if 0x41 ≤ n && n ≤ 0x5A then n - 0x41 + 10
    else radix
  if v < radix then some v else none

/-- Reads the longest run of digits at the head of the list: the number of
digits read, their value, and the rest. -/
def readDigits (radix : Nat) : List Char → Nat → Nat → Nat × Nat × List Char
  | [], k, acc => (k, acc, [])
  | c :: cs, k, acc =>
    match digitValue radix c with
    | some v => readDigits radix cs (k + 1) (acc * radix + v)
    | none => (k, acc, c :: cs)

/-- Splits an optional sign off the head of the list: `true` for a minus. -/
def readSign : List Char → Bool × List Char
  | '-' :: cs => (true, cs)
  | '+' :: cs => (false, cs)
  | cs => (false, cs)

/-- The function `parseInt` without radix: leading white space, sign, an
optional `0x` for base 16, then the longest run of digits. -/
def refParseInt (s : String) : Option Int :=
  let (neg, r) := readSign (s.data.dropWhile isWhiteSpace)
  let (radix, r) :=
    match r with
    | '0' :: 'x' :: t => (16, t)
    | '0' :: 'X' :: t => (16, t)
    | t => (10, t)
  let (k, v, _) := readDigits radix r 0 0
  if k = 0 then none else some (if neg then -(v : Int) else v)

/-- The function `parseFloat`: leading white space, sign, then `Infinity` or
the longest decimal literal (digits, fraction, exponent). -/
def refParseFloat (s : String) : Option Numero :=
  let (neg, r) := readSign (s.data.dropWhile isWhiteSpace)
  if "Infinity".data.isPrefixOf r then some (.infinito neg)
  else
    let (ki, vi, r1) := readDigits 10 r 0 0
    let (kf, vf, r2) :=
      match r1 with
      | '.' :: t => readDigits 10 t 0 0
      | t => (0, 0, t)
    if ki + kf = 0 then none
    else
      let ex : Int :=
        match r2 with
        | 'e' :: t | 'E' :: t =>
          let (nege, t1) := readSign t
          let (ke, ve, _) := readDigits 10 t1 0 0
          if ke = 0 then 0 else if nege then -(ve : Int) else ve
        | _ => 0
      let m : Int := vi * 10 ^ kf + vf
      some (.finito (if neg then -m else m) (ex - kf))

/-- Two decimal digits of a number below 100. -/
def doisDigitos (n : Nat) : String :=
  toString (n / 10 % 10) ++ toString (n % 10)

/-- The call `toFixed(2)`: exact for values with at most two fractional digits;
other values are rounded half away from zero on the decimal value. -/
def refToFixed2 : Numero → String
  | .infinito neg => if neg then "-Infinity" else "Infinity"
  | .finito m e =>
    let a := m.natAbs
    let centesimos : Nat :=
      if 0 ≤ e + 2 then a * 10 ^ (e + 2).toNat
      else (2 * a + 10 ^ (-(e + 2)).toNat) / (2 * 10 ^ (-(e + 2)).toNat)
    (if m < 0 then "-" else "") ++ toString (centesimos / 100) ++ "." ++ doisDigitos (centesimos % 100)

/-- The reference runtime. -/
def refRuntime : Runtime where
  toLowerCase s := ⟨s.data.map refLowerChar⟩
  normalizeNFD s := ⟨s.data.flatMap refDecompose⟩
  parseInt := refParseInt
  numberToString n := toString n
  parseFloat := refParseFloat
  toFixed2 := refToFixed2

/-! ## Text normaliser -/

/-- Source: `normalizarTexto`, `src/index.js` lines 89-91:
`texto.toLowerCase().trim().normalize('NFD').replace(/[U+0300-U+036F]/g, '')`. -/
def normalizarTexto (rt : Runtime) (texto : String) : String :=
  stripMarks (rt.normalizeNFD (trim (rt.toLowerCase texto)))

/-! ## JavaScript values and errors -/

/-- A value parsed from JSON, or `undefined`. Numbers are restricted to
integers. An object is its list of properties; the first binding of a name
is its value. -/
inductive JSVal
  | undefined
  | null
  | bool (b : Bool)
  | num (n : Int)
  | str (s : String)
  | arr (xs : List JSVal)
  | obj (campos : List (String × JSVal))

/-- An exception thrown by the program. The only ones that escape a `try`
are the `TypeError`s of a property read on `undefined` or `null` and of a
call of a method the value does not have. -/
inductive ErroJS
  | typeError
  deriving DecidableEq, Repr

deriving instance DecidableEq for Except

mutual
/-- The string conversion of a value inside a template literal. -/
def JSVal.ts (rt : Runtime) : JSVal → String
  | .undefined => "undefined"
  | .null => "null"
  | .bool b => if b then "true" else "false"
  | .num n => rt.numberToString n
  | .str s => s
  | .arr xs => JSVal.tsElems rt xs
  | .obj _ => "[object Object]"
/-- The method `Array.prototype.join` with a comma. -/
def JSVal.tsElems (rt : Runtime) : List JSVal → String
  | [] => ""
  | [x] => JSVal.tsElem rt x
  | x :: y :: r => JSVal.tsElem rt x ++ "," ++ JSVal.tsElems rt (y :: r)
/-- One element of a joined array: `undefined` and `null` print as nothing. -/
def JSVal.tsElem (rt : Runtime) : JSVal → String
  | .undefined => ""
  | .null => ""
  | .bool b => if b then "true" else "false"
  | .num n => rt.numberToString n
  | .str s => s
  | .arr xs => JSVal.tsElems rt xs
  | .obj _ => "[object Object]"
end

/-- Property read `v.nome`, for the property names of the webhook envelope
(none of which a primitive or an array has): a `TypeError` on `undefined`
and `null`. -/
def JSVal.prop (v : JSVal) (nome : String) : Except ErroJS JSVal :=
  match v with
  | .undefined => .error .typeError
  | .null => .error .typeError
  | .obj campos => .ok ((campos.lookup nome).getD .undefined)
  | _ => .ok .undefined

/-- Index read `v[0]`. -/
def JSVal.idx0 (v : JSVal) : Except ErroJS JSVal :=
  match v with
  | .undefined => .error .typeError
  | .null => .error .typeError
  | .arr xs => .ok (xs.head?.getD .undefined)
  | .str s => .ok (match s.data with | [] => .undefined | c :: _ => .str ⟨[c]⟩)
  | .obj campos => .ok ((campos.lookup "0").getD .undefined)
  | _ => .ok .undefined

/-- Truthiness of a value in a condition. -/
def JSVal.truthy : JSVal → Bool
  | .undefined => false
  | .null => false
  | .bool b => b
  | .num n => n != 0
  | .str s => s != ""
  | .arr _ => true
  | .obj _ => true

/-- Strict equality `v === s` with a string. -/
def JSVal.eqStr (v : JSVal) (s : String) : Bool :=
  match v with
  | .str t => t == s
  | _ => false

/-! ## State, configuration, environment and trace -/

/-- The object `p.produto` of one element of the upstream list. A field holds
the string conversion of the upstream value; `none` is an absent field. -/
structure Produto where
  nome : Option String
  preco : Option String
  estoque : Option String
  deriving DecidableEq, Repr

/-- One element `p` of the upstream list: `none` when `p.produto` is
`undefined` or `null`, so that a field read on it throws. -/
abbrev Item := Option Produto

/-- String conversion of a field: an absent field is `undefined`. -/
def campo : Option String → String
  | none => "undefined"
  | some s => s

/-- The module variables `produtosCache` and `ultimaAtualizacao`
(`src/index.js` lines 17-18). -/
structure Estado where
  produtosCache : List Item
  ultimaAtualizacao : Int
  deriving DecidableEq, Repr

/-- The initial values of the module variables. -/
def Estado.inicial : Estado := ⟨[], 0⟩

/-- The constant `CACHE_DURATION` (`src/index.js` line 19). -/
def CACHE_DURATION : Int := 3600000

/-- The environment variables read by the functions embedded here. -/
structure Config where
  /-- The variable `process.env.OWNER_PHONE`: `none` when unset. -/
  OWNER_PHONE : Option String

/-- Outcome of the request `axios.get` to Bling. -/
inductive RespostaBling
  /-- The promise rejects (network or authentication error). -/
  | falha (mensagem : String)
  /-- The promise resolves; `none` when `response.data`, `.retorno` or
  `.produtos` is falsy, otherwise the array `response.data.retorno.produtos`. -/
  | sucesso (produtos : Option (List Item))

/-- What the outside world answers during one call: the clock, the Bling
request, and the two WhatsApp requests (`none`: accepted; `some d`: rejected
with detail `d`). -/
structure Mundo where
  agora : Int
  bling : RespostaBling
  postOwner : Option String
  postCliente : Option String

/-- Observable actions, in order of occurrence. -/
inductive Evento
  /-- A line of `console.log`. -/
  | log (linha : String)
  /-- A line of `console.error`. -/
  | erro (linha : String) (detalhe : String)
  /-- The request `axios.get` to the Bling product list. -/
  | get
  /-- The request `axios.post` of a text message. -/
  | post (para : JSVal) (mensagem : String)

/-- Is the event the upstream catalog request. -/
def Evento.isGet : Evento → Bool
  | .get => true
  | _ => false

/-- Is the event an outbound message. -/
def Evento.isPost : Evento → Bool
  | .post _ _ => true
  | _ => false

/-- Result of a call: returned value, module variables afterwards, trace. -/
structure Saida (α : Type) where
  valor : α
  estado : Estado
  eventos : List Evento

/-- The same result with events that happened before. -/
def Saida.apos {α : Type} (antes : List Evento) (s : Saida α) : Saida α :=
  { s with eventos := antes ++ s.eventos }

/-! ## Catalog client -/

/-- The condition of line 27 with freshness window `janela`. -/
def cacheFresco (janela agora : Int) (st : Estado) : Bool :=
  decide (st.produtosCache.length > 0) && decide (agora - st.ultimaAtualizacao < janela)

/-- Source: `buscarProdutosBling`, `src/index.js` lines 23-53, with the
freshness window as a parameter. -/
def buscarProdutosJanela (janela agora : Int) (rede : RespostaBling) (st : Estado) :
    Saida (List Item) :=
  if cacheFresco janela agora st then
    ⟨st.produtosCache, st, [.log "📦 Usando cache de produtos"]⟩
  else
    match rede with
    | .sucesso (some produtos) =>
      ⟨produtos, ⟨produtos, agora⟩,
        [.log "🔄 Buscando produtos do Bling...", .get,
         .log ("✅ " ++ toString produtos.length ++ " produtos carregados")]⟩
    | .sucesso none =>
      ⟨[], st, [.log "🔄 Buscando produtos do Bling...", .get]⟩
    | .falha mensagem =>
      ⟨st.produtosCache, st,
        [.log "🔄 Buscando produtos do Bling...", .get,
         .erro "❌ Erro ao buscar produtos Bling:" mensagem]⟩

/-- Source: `buscarProdutosBling` with the window `CACHE_DURATION`. -/
def buscarProdutosBling (agora : Int) (rede : RespostaBling) (st : Estado) : Saida (List Item) :=
  buscarProdutosJanela CACHE_DURATION agora rede st

/-! ## Outbound messenger and escalation -/

/-- Source: `enviarMensagem`, `src/index.js` lines 57-78. -/
def enviarMensagem (rt : Runtime) (resultado : Option String) (telefone : JSVal)
    (mensagem : String) : List Evento :=
  match resultado with
  | none => [.post telefone mensagem, .log ("✅ Mensagem enviada para " ++ telefone.ts rt)]
  | some detalhe => [.post telefone mensagem, .erro "❌ Erro ao enviar mensagem:" detalhe]

/-- Source: `avisarOwner`, `src/index.js` lines 80-85. -/
def avisarOwner (rt : Runtime) (cfg : Config) (resultado : Option String)
    (assunto detalhes : String) : List Evento :=
  match cfg.OWNER_PHONE with
  | none => []
  | some owner =>
    if owner = "" then []
    else enviarMensagem rt resultado (.str owner) ("🔔 *" ++ assunto ++ "*\n\n" ++ detalhes)

/-! ## Intent chain -/

/-- The reply of line 105. -/
def respostaDefeito : String :=
  "Entendi que você tem um problema com seu produto. 😟\n\nVou passar você para nosso time de atendimento especializado em garantia.\n\nUm momento..."

/-- The reply of line 115. -/
def respostaEstoqueIndisponivel : String :=
  "Desculpa, não consegui acessar nosso estoque agora. Tenta novamente em alguns segundos! 😊"

/-- The reply of line 134. -/
def respostaSemEstoque : String :=
  "No momento, não temos produtos em estoque. Mas estamos recebendo novidades em breve! 🚀"

/-- The reply of line 147. -/
def respostaPrecoIndisponivel : String :=
  "Desculpa, não consegui acessar nossos preços agora. Tenta novamente! 😊"

/-- The reply of line 167. -/
def respostaEntrega : String :=
  "Ótimo! 🚚\n\nPara entregas, oferecemos:\n\n✅ *Frete Normal* - 5-7 dias úteis\n✅ *Uber Eats* - Entrega rápida (quando disponível)\n\nVou passar você para nosso time de vendas confirmar a melhor opção para você! Um momento... 😊"

/-- The reply of line 174. -/
def respostaSaudacao : String :=
  "Oi! 👋 Bem-vindo à nossa loja de eletrônicos! 🎉\n\nComo posso ajudar você hoje?\n\n• Quer saber sobre *produtos em estoque*?\n• Quer conhecer nossos *preços*?\n• Tem dúvidas sobre *entrega*?\n\nÉ só chamar! 😊"

/-- The reply of line 178. -/
def respostaPadrao : String :=
  "Desculpa, não entendi muito bem sua pergunta. 🤔\n\nPosso ajudar com:\n\n• Produtos em estoque\n• Preços\n• Informações de entrega\n• Dúvidas sobre produtos\n\nTenta reformular sua pergunta! 😊"

/-- The subject of the escalation of line 102. -/
def assuntoDefeito : String := "⚠️ CLIENTE COM DEFEITO/GARANTIA"

/-- The subject of the escalation of line 164. -/
def assuntoEntrega : String := "🚗 CLIENTE PERGUNTANDO SOBRE ENTREGA"

/-- The detail of both escalations (lines 103 and 165). -/
def detalhesAviso (rt : Runtime) (telefone : JSVal) (texto : String) : String :=
  "Telefone: " ++ telefone.ts rt ++ "\nMensagem: " ++ texto

/-- The expression `parseInt(prod.estoque) || 0` of line 123: NaN and zero
both give zero. -/
def estoqueDe (rt : Runtime) (prod : Produto) : Int :=
  match rt.parseInt (campo prod.estoque) with
  | none => 0
  | some n => n

/-- The expression `parseFloat(prod.preco).toFixed(2)` of lines 128 and 154:
`toFixed` prints NaN as `NaN`. -/
def precoDe (rt : Runtime) (prod : Produto) : String :=
  match rt.parseFloat (campo prod.preco) with
  | none => "NaN"
  | some x => rt.toFixed2 x

/-- The text appended for one product in stock (lines 127-129). -/
def linhaEstoque (rt : Runtime) (prod : Produto) : String :=
  "✅ *" ++ campo prod.nome ++ "*\n" ++ "   Preço: R$ " ++ precoDe rt prod ++ "\n"
    ++ "   Estoque: " ++ rt.numberToString (estoqueDe rt prod) ++ " unidades\n\n"

/-- The text appended for one product in the price list (line 154). -/
def linhaPreco (rt : Runtime) (prod : Produto) : String :=
  "• *" ++ campo prod.nome ++ "*: R$ " ++ precoDe rt prod ++ "\n"

/-- The body of the `forEach` of lines 121-131 on the variables `resposta`
and `temEstoque`. -/
def passoEstoque (rt : Runtime) (ac : String × Bool) (p : Item) :
    Except ErroJS (String × Bool) :=
  match p with
  | none => .error .typeError
  | some prod =>
    if estoqueDe rt prod > 0 then .ok (ac.1 ++ linhaEstoque rt prod, true)
    else .ok ac

/-- The body of the `forEach` of lines 152-155 on the variable `resposta`. -/
def passoPreco (rt : Runtime) (resposta : String) (p : Item) : Except ErroJS String :=
  match p with
  | none => .error .typeError
  | some prod => .ok (resposta ++ linhaPreco rt prod)

/-- Lines 114-137: the reply of the stock rule from the list returned by the
catalog client. -/
def respostaEstoque (rt : Runtime) (produtos : List Item) : Except ErroJS String :=
  if produtos.length = 0 then .ok respostaEstoqueIndisponivel
  else
    match (produtos.take 5).foldlM (passoEstoque rt) ("📦 *Produtos em Estoque:*\n\n", false) with
    | .error e => .error e
    | .ok (resposta, temEstoque) =>
      if !temEstoque then .ok respostaSemEstoque
      else .ok (resposta ++ "Quer saber mais sobre algum produto? 😊")

/-- Lines 146-157: the reply of the price rule from the list returned by the
catalog client. -/
def respostaPreco (rt : Runtime) (produtos : List Item) : Except ErroJS String :=
  if produtos.length = 0 then .ok respostaPrecoIndisponivel
  else
    match (produtos.take 5).foldlM (passoPreco rt) "💰 *Nossos Preços:*\n\n" with
    | .error e => .error e
    | .ok resposta => .ok (resposta ++ "\nQuer mais informações? 😊")

/-- Lines 102-105: the defect and warranty rule. -/
def ramoDefeito (rt : Runtime) (cfg : Config) (mundo : Mundo) (st : Estado) (telefone : JSVal)
    (texto : String) : Saida (Except ErroJS String) :=
  ⟨.ok respostaDefeito, st,
    avisarOwner rt cfg mundo.postOwner assuntoDefeito (detalhesAviso rt telefone texto)⟩

/-- Lines 112-137: the stock rule. -/
def ramoEstoque (rt : Runtime) (mundo : Mundo) (st : Estado) : Saida (Except ErroJS String) :=
  let r := buscarProdutosBling mundo.agora mundo.bling st
  ⟨respostaEstoque rt r.valor, r.estado, r.eventos⟩

/-- Lines 144-157: the price rule. -/
def ramoPreco (rt : Runtime) (mundo : Mundo) (st : Estado) : Saida (Except ErroJS String) :=
  let r := buscarProdutosBling mundo.agora mundo.bling st
  ⟨respostaPreco rt r.valor, r.estado, r.eventos⟩

/-- Lines 164-167: the delivery rule. -/
def ramoEntrega (rt : Runtime) (cfg : Config) (mundo : Mundo) (st : Estado) (telefone : JSVal)
    (texto : String) : Saida (Except ErroJS String) :=
  ⟨.ok respostaEntrega, st,
    avisarOwner rt cfg mundo.postOwner assuntoEntrega (detalhesAviso rt telefone texto)⟩

/-- Line 174: the greeting rule. -/
def ramoSaudacao (st : Estado) : Saida (Except ErroJS String) := ⟨.ok respostaSaudacao, st, []⟩

/-- Line 178: the default reply. -/
def ramoPadrao (st : Estado) : Saida (Except ErroJS String) := ⟨.ok respostaPadrao, st, []⟩

/-- The line logged at the start of `processarMensagem` (line 96). -/
def logMensagem (rt : Runtime) (telefone : JSVal) (texto : String) : Evento :=
  .log ("📱 Mensagem de " ++ telefone.ts rt ++ ": " ++ texto)

/-- Source: `processarMensagem`, `src/index.js` lines 93-179, for a `texto`
that is a string. -/
def processarMensagem (rt : Runtime) (cfg : Config) (mundo : Mundo) (st : Estado)
    (telefone : JSVal) (texto : String) : Saida (Except ErroJS String) :=
  let textoNorm := normalizarTexto rt texto
  Saida.apos [logMensagem rt telefone texto] <|
    if includes textoNorm "defeito" || includes textoNorm "garantia"
        || includes textoNorm "problema" || includes textoNorm "nao funciona" then
      ramoDefeito rt cfg mundo st telefone texto
    else if includes textoNorm "tem em estoque" || includes textoNorm "disponivel"
        || includes textoNorm "em estoque" || includes textoNorm "voces tem" then
      ramoEstoque rt mundo st
    else if includes textoNorm "preco" || includes textoNorm "quanto custa"
        || includes textoNorm "valor" || includes textoNorm "custa" then
      ramoPreco rt mundo st
    else if includes textoNorm "entrega" || includes textoNorm "frete"
        || includes textoNorm "uber" || includes textoNorm "como recebo" then
      ramoEntrega rt cfg mundo st telefone texto
    else if includes textoNorm "oi" || includes textoNorm "ola"
        || includes textoNorm "e ai" || includes textoNorm "tudo bem" then
      ramoSaudacao st
    else
      ramoPadrao st

/-! ## The handler of `POST /webhook` -/

/-- Lines 200-207: the reads on the envelope. `none` when `value.messages` is
falsy, otherwise the values of `message.from` and `message.text.body`. -/
def extrairMensagem (body : JSVal) : Except ErroJS (Option (JSVal × JSVal)) := do
  let entry ← (← body.prop "entry").idx0
  let changes ← (← entry.prop "changes").idx0
  let value ← changes.prop "value"
  let messages ← value.prop "messages"
  if messages.truthy then
    let message ← messages.idx0
    let telefone ← message.prop "from"
    let texto ← (← message.prop "text").prop "body"
    pure (some (telefone, texto))
  else
    pure none

/-- Source: the handler of `app.post('/webhook')`, `src/index.js` lines
196-215. The value is the status sent, or the exception that rejects the
handler before any status is sent. A `texto` that is not a string has no
method `toLowerCase`, so `normalizarTexto` throws on it. -/
def postWebhook (rt : Runtime) (cfg : Config) (mundo : Mundo) (st : Estado) (body : JSVal) :
    Saida (Except ErroJS Nat) :=
  match body.prop "object" with
  | .error e => ⟨.error e, st, []⟩
  | .ok objeto =>
    if objeto.eqStr "whatsapp_business_account" then
      match extrairMensagem body with
      | .error e => ⟨.error e, st, []⟩
      | .ok none => ⟨.ok 200, st, []⟩
      | .ok (some (telefone, .str texto)) =>
        let r := processarMensagem rt cfg mundo st telefone texto
        match r.valor with
        | .error e => ⟨.error e, r.estado, r.eventos⟩
        | .ok resposta =>
          ⟨.ok 200, r.estado, r.eventos ++ enviarMensagem rt mundo.postCliente telefone resposta⟩
      | .ok (some (_, _)) => ⟨.error .typeError, st, []⟩
    else
      ⟨.ok 200, st, []⟩

/-! ## The rule table of the specification -/

/-- The rules of the intent chain, in priority order. -/
inductive Regra
  | defeito | estoque | preco | entrega | saudacao
  deriving DecidableEq, Repr

/-- The keywords of each rule. -/
def Regra.palavras : Regra → List String
  | .defeito => ["defeito", "garantia", "problema", "nao funciona"]
  | .estoque => ["tem em estoque", "disponivel", "em estoque", "voces tem"]
  | .preco => ["preco", "quanto custa", "valor", "custa"]
  | .entrega => ["entrega", "frete", "uber", "como recebo"]
  | .saudacao => ["oi", "ola", "e ai", "tudo bem"]

/-- The fixed priority order. -/
def Regra.ordem : List Regra := [.defeito, .estoque, .preco, .entrega, .saudacao]

/-- The number of a rule in the priority order. -/
def Regra.numero : Regra → Nat
  | .defeito => 1
  | .estoque => 2
  | .preco => 3
  | .entrega => 4
  | .saudacao => 5

/-- Does the rule have a keyword contained in the normalised text. -/
def Regra.casa (textoNorm : String) (r : Regra) : Bool :=
  r.palavras.any fun kw => includes textoNorm kw

/-- The lowest-numbered rule with a keyword contained in the normalised
text, `none` when no rule has one. -/
def regraVencedora (textoNorm : String) : Option Regra :=
  Regra.ordem.find? (Regra.casa textoNorm)

/-- The reply produced by a rule, and the fallback when there is none. -/
def responder (rt : Runtime) (cfg : Config) (mundo : Mundo) (st : Estado) (telefone : JSVal)
    (texto : String) : Option Regra → Saida (Except ErroJS String)
  | some .defeito => ramoDefeito rt cfg mundo st telefone texto
  | some .estoque => ramoEstoque rt mundo st
  | some .preco => ramoPreco rt mundo st
  | some .entrega => ramoEntrega rt cfg mundo st telefone texto
  | some .saudacao => ramoSaudacao st
  | none => ramoPadrao st

/-! ## Sequences of catalog calls -/

/-- One call of `buscarProdutosBling`: the clock and the upstream outcome. -/
structure Chamada where
  agora : Int
  rede : RespostaBling

/-- Does the call reach the assignments of lines 42-43: the list it stores. -/
def Chamada.escreve (c : Chamada) (st : Estado) : Option (List Item) :=
  if cacheFresco CACHE_DURATION c.agora st then none
  else
    match c.rede with
    | .sucesso (some produtos) => some produtos
    | _ => none

/-- Runs the calls in order from `st`. The second component records the list
and the time stored by the most recent call that wrote the cache, `none`
while no call has written it. -/
def executar : List Chamada → Estado → Option (List Item × Int) → Estado × Option (List Item × Int)
  | [], st, escrita => (st, escrita)
  | c :: cs, st, escrita =>
    executar cs (buscarProdutosBling c.agora c.rede st).estado
      (match c.escreve st with
        | some produtos => some (produtos, c.agora)
        | none => escrita)

/-! ## The listings of the specification -/

/-- Concatenation of a list of strings. -/
def concatenar : List String → String
  | [] => ""
  | s :: r => s ++ concatenar r

/-- The products the stock reply lists: those of the first five with
strictly positive stock, in their original order. -/
def produtosEmEstoque (rt : Runtime) (ps : List Produto) : List Produto :=
  (ps.take 5).filter fun p => estoqueDe rt p > 0

/-- The stock reply for a non-empty list of products. -/
def listagemEstoque (rt : Runtime) (ps : List Produto) : String :=
  if produtosEmEstoque rt ps = [] then respostaSemEstoque
  else "📦 *Produtos em Estoque:*\n\n" ++ concatenar ((produtosEmEstoque rt ps).map (linhaEstoque rt))
    ++ "Quer saber mais sobre algum produto? 😊"

/-- Does the string begin or end with a white space character. -/
def bordaBranca (s : String) : Bool :=
  (match s.data.head? with
    | some c => isWhiteSpace c
    | none => false)
  || (match s.data.getLast? with
    | some c => isWhiteSpace c
    | none => false)

/-- The base character of a decomposition in the reference runtime. -/
def refBase (c : Char) : Char := (refDecompose c).headD c

/-- The alert text built by `avisarOwner` (line 83). -/
def textoAviso (assunto detalhes : String) : String := "🔔 *" ++ assunto ++ "*\n\n" ++ detalhes

/-! ## Lemmas on strings -/

theorem isInfixOf_iff (kw s : List Char) : isInfixOf kw s = true ↔ kw <:+: s := by
  induction s with
  | nil => simp [isInfixOf, List.isEmpty_iff]
  | cons c cs ih =>
    simp only [isInfixOf, Bool.or_eq_true, ih, List.infix_cons_iff, List.isPrefixOf_iff_prefix]

theorem includes_iff (s kw : String) : includes s kw = true ↔ kw.data <:+: s.data :=
  isInfixOf_iff kw.data s.data

theorem head_data_append (a b : String) (c : Char) (h : a.data.head? = some c) :
    (a ++ b).data.head? = some c := by
  rw [String.data_append]
  cases hd : a.data with
  | nil => rw [hd] at h; simp at h
  | cons x xs => rw [hd] at h; simpa using h

/-! ## Lemmas on the replies -/

theorem foldlM_passoEstoque_head (rt : Runtime) (c : Char) (l : List Item) :
    ∀ (ac r : String × Bool), ac.1.data.head? = some c →
      l.foldlM (passoEstoque rt) ac = .ok r → r.1.data.head? = some c := by
  induction l with
  | nil =>
    intro ac r hc h
    simp only [List.foldlM, pure, Except.pure, Except.ok.injEq] at h
    rw [← h]; exact hc
  | cons p ps ih =>
    intro ac r hc h
    rw [List.foldlM_cons] at h
    cases p with
    | none => simp [passoEstoque, bind, Except.bind] at h
    | some prod =>
      by_cases hp : estoqueDe rt prod > 0
      · simp only [passoEstoque, hp, if_true, bind, Except.bind] at h
        exact ih _ r (head_data_append _ _ c hc) h
      · simp only [passoEstoque, hp, if_false, bind, Except.bind] at h
        exact ih _ r hc h

theorem foldlM_passoPreco_head (rt : Runtime) (c : Char) (l : List Item) :
    ∀ (ac r : String), ac.data.head? = some c →
      l.foldlM (passoPreco rt) ac = .ok r → r.data.head? = some c := by
  induction l with
  | nil =>
    intro ac r hc h
    simp only [List.foldlM, pure, Except.pure, Except.ok.injEq] at h
    rw [← h]; exact hc
  | cons p ps ih =>
    intro ac r hc h
    rw [List.foldlM_cons] at h
    cases p with
    | none => simp [passoPreco, bind, Except.bind] at h
    | some prod =>
      simp only [passoPreco, bind, Except.bind] at h
      exact ih _ r (head_data_append _ _ c hc) h

theorem respostaEstoque_ne_padrao (rt : Runtime) (l : List Item) :
    respostaEstoque rt l ≠ .ok respostaPadrao := by
  unfold respostaEstoque
  split
  · decide
  · split
    · simp
    · rename_i resposta tem hf
      split
      · decide
      · intro h
        have h1 := foldlM_passoEstoque_head rt '📦' _ _ _ (by decide) hf
        have h2 := head_data_append resposta "Quer saber mais sobre algum produto? 😊" _ h1
        rw [Except.ok.injEq] at h
        rw [h] at h2
        revert h2
        decide

theorem respostaPreco_ne_padrao (rt : Runtime) (l : List Item) :
    respostaPreco rt l ≠ .ok respostaPadrao := by
  unfold respostaPreco
  split
  · decide
  · split
    · simp
    · rename_i resposta hf
      intro h
      have h1 := foldlM_passoPreco_head rt '💰' _ _ _ (by decide) hf
      have h2 := head_data_append resposta "\nQuer mais informações? 😊" _ h1
      rw [Except.ok.injEq] at h
      rw [h] at h2
      revert h2
      decide

/-! ## Rule priority -/

theorem processarMensagem_eq_responder (rt : Runtime) (cfg : Config) (mundo : Mundo) (st : Estado)
    (telefone : JSVal) (texto : String) :
    processarMensagem rt cfg mundo st telefone texto
      = Saida.apos [logMensagem rt telefone texto]
          (responder rt cfg mundo st telefone texto (regraVencedora (normalizarTexto rt texto))) := by
  simp only [processarMensagem, regraVencedora, Regra.ordem, Regra.casa, Regra.palavras,
    List.any_cons, List.any_nil, Bool.or_false, List.find?_cons, List.find?_nil, Bool.or_assoc]
  generalize normalizarTexto rt texto = t
  generalize (includes t "defeito" || (includes t "garantia"
    || (includes t "problema" || includes t "nao funciona"))) = c1
  generalize (includes t "tem em estoque" || (includes t "disponivel"
    || (includes t "em estoque" || includes t "voces tem"))) = c2
  generalize (includes t "preco" || (includes t "quanto custa"
    || (includes t "valor" || includes t "custa"))) = c3
  generalize (includes t "entrega" || (includes t "frete"
    || (includes t "uber" || includes t "como recebo"))) = c4
  generalize (includes t "oi" || (includes t "ola"
    || (includes t "e ai" || includes t "tudo bem"))) = c5
  cases c1 <;> cases c2 <;> cases c3 <;> cases c4 <;> cases c5 <;> rfl

theorem Regra.casa_iff (t : String) (r : Regra) :
    r.casa t = true ↔ ∃ kw ∈ r.palavras, kw.data <:+: t.data := by
  simp only [Regra.casa, List.any_eq_true, includes_iff]

theorem Regra.forall_iff (P : Regra → Prop) :
    (∀ r, P r) ↔ P .defeito ∧ P .estoque ∧ P .preco ∧ P .entrega ∧ P .saudacao :=
  ⟨fun h => ⟨h _, h _, h _, h _, h _⟩, fun ⟨h1, h2, h3, h4, h5⟩ r => by cases r <;> assumption⟩

theorem find_ordem_iff (f : Regra → Bool) (r : Regra) :
    Regra.ordem.find? f = some r ↔
      f r = true ∧ ∀ r2 : Regra, r2.numero < r.numero → f r2 = false := by
  rw [Regra.forall_iff]
  simp only [Regra.ordem, List.find?_cons, List.find?_nil]
  generalize h1 : f .defeito = c1
  generalize h2 : f .estoque = c2
  generalize h3 : f .preco = c3
  generalize h4 : f .entrega = c4
  generalize h5 : f .saudacao = c5
  cases r <;> simp only [h1, h2, h3, h4, h5, Regra.numero] <;>
    cases c1 <;> cases c2 <;> cases c3 <;> cases c4 <;> cases c5 <;> simp

theorem find_ordem_none_iff (f : Regra → Bool) :
    Regra.ordem.find? f = none ↔ ∀ r : Regra, f r = false := by
  rw [Regra.forall_iff]
  simp [Regra.ordem]

theorem responder_valor_padrao_iff (rt : Runtime) (cfg : Config) (mundo : Mundo) (st : Estado)
    (telefone : JSVal) (texto : String) (o : Option Regra) :
    (responder rt cfg mundo st telefone texto o).valor = .ok respostaPadrao ↔ o = none := by
  cases o with
  | none => simp [responder, ramoPadrao]
  | some r =>
    simp only [reduceCtorEq, iff_false]
    cases r
    · simp only [responder, ramoDefeito]; decide
    · simp only [responder, ramoEstoque]; exact respostaEstoque_ne_padrao rt _
    · simp only [responder, ramoPreco]; exact respostaPreco_ne_padrao rt _
    · simp only [responder, ramoEntrega]; decide
    · simp only [responder, ramoSaudacao]; decide

/-- C1: `processarMensagem` answers with the reply of the lowest-numbered rule
(defect, stock, price, delivery, greeting) that has a keyword contained in
the normalised text, and with the fallback menu exactly when no keyword of
any rule is contained; a text whose normalised form contains a defect
keyword gets the defect reply, as does the example of the specification. -/
theorem processarMensagem_prioridade (rt : Runtime) (cfg : Config) (mundo : Mundo) (st : Estado)
    (telefone : JSVal) (texto : String) :
    processarMensagem rt cfg mundo st telefone texto
        = Saida.apos [logMensagem rt telefone texto]
            (responder rt cfg mundo st telefone texto (regraVencedora (normalizarTexto rt texto)))
      ∧ (∀ r : Regra, regraVencedora (normalizarTexto rt texto) = some r ↔
          (∃ kw ∈ r.palavras, kw.data <:+: (normalizarTexto rt texto).data)
            ∧ ∀ r2 : Regra, r2.numero < r.numero →
                ∀ kw ∈ r2.palavras, ¬ kw.data <:+: (normalizarTexto rt texto).data)
      ∧ ((processarMensagem rt cfg mundo st telefone texto).valor = .ok respostaPadrao ↔
          ∀ r : Regra, ∀ kw ∈ r.palavras, ¬ kw.data <:+: (normalizarTexto rt texto).data)
      ∧ ((∃ kw ∈ Regra.defeito.palavras, kw.data <:+: (normalizarTexto rt texto).data) →
          (processarMensagem rt cfg mundo st telefone texto).valor = .ok respostaDefeito)
      ∧ (processarMensagem refRuntime cfg mundo st telefone
          "tenho um problema com a entrega, qual o frete?").valor = .ok respostaDefeito := by
  have hcasa : ∀ r : Regra, r.casa (normalizarTexto rt texto) = false ↔
      ∀ kw ∈ r.palavras, ¬ kw.data <:+: (normalizarTexto rt texto).data := by
    intro r
    rw [← Bool.not_eq_true, Regra.casa_iff]
    simp
  refine ⟨processarMensagem_eq_responder rt cfg mundo st telefone texto, ?_, ?_, ?_, ?_⟩
  · intro r
    rw [regraVencedora, find_ordem_iff, Regra.casa_iff]
    simp only [hcasa]
  · rw [processarMensagem_eq_responder]
    show (responder rt cfg mundo st telefone texto _).valor = _ ↔ _
    rw [responder_valor_padrao_iff, regraVencedora, find_ordem_none_iff]
    simp only [hcasa]
  · intro h
    rw [processarMensagem_eq_responder]
    have h1 : regraVencedora (normalizarTexto rt texto) = some .defeito := by
      rw [regraVencedora, find_ordem_iff, Regra.casa_iff]
      exact ⟨h, fun r2 hr2 => by cases r2 <;> simp [Regra.numero] at hr2⟩
    rw [h1]
    rfl
  · rw [processarMensagem_eq_responder]
    have h1 : regraVencedora (normalizarTexto refRuntime
        "tenho um problema com a entrega, qual o frete?") = some .defeito := by decide
    rw [h1]
    rfl

/-- Witness of `processarMensagem_prioridade`: the defect rule wins on a text
that also holds the delivery keywords `entrega` and `frete`. -/
theorem processarMensagem_prioridade_witness :
    (∃ kw ∈ Regra.defeito.palavras, kw.data <:+:
        (normalizarTexto refRuntime "Tenho um PROBLEMA com a entrega, qual o frete?").data)
      ∧ (processarMensagem refRuntime ⟨some "5511999990000"⟩ ⟨0, .falha "offline", none, none⟩
          Estado.inicial (.str "5511888880000")
          "Tenho um PROBLEMA com a entrega, qual o frete?").valor = .ok respostaDefeito :=
  ⟨⟨"problema", by decide, (includes_iff _ _).mp (by decide)⟩,
   (processarMensagem_prioridade refRuntime ⟨some "5511999990000"⟩ ⟨0, .falha "offline", none, none⟩
      Estado.inicial (.str "5511888880000")
      "Tenho um PROBLEMA com a entrega, qual o frete?").2.2.2.1
     ⟨"problema", by decide, (includes_iff _ _).mp (by decide)⟩⟩

/-! ## Escalation -/

theorem avisarOwner_configurado (rt : Runtime) (cfg : Config) (resultado : Option String)
    (assunto detalhes owner : String) (hcfg : cfg.OWNER_PHONE = some owner) (howner : owner ≠ "") :
    avisarOwner rt cfg resultado assunto detalhes
      = enviarMensagem rt resultado (.str owner) (textoAviso assunto detalhes) := by
  simp [avisarOwner, hcfg, howner, textoAviso]

theorem avisarOwner_sem_owner (rt : Runtime) (cfg : Config) (resultado : Option String)
    (assunto detalhes : String) (hcfg : cfg.OWNER_PHONE = none ∨ cfg.OWNER_PHONE = some "") :
    avisarOwner rt cfg resultado assunto detalhes = [] := by
  rcases hcfg with h | h <;> simp [avisarOwner, h]

theorem enviarMensagem_posts (rt : Runtime) (resultado : Option String) (telefone : JSVal)
    (mensagem : String) :
    (enviarMensagem rt resultado telefone mensagem).filter Evento.isPost = [.post telefone mensagem]
      ∧ (enviarMensagem rt resultado telefone mensagem).filter Evento.isGet = [] := by
  cases resultado <;> simp [enviarMensagem, Evento.isPost, Evento.isGet]

theorem textoAviso_defeito_ne_entrega (d1 d2 : String) :
    textoAviso assuntoDefeito d1 ≠ textoAviso assuntoEntrega d2 := by
  intro h
  have h1 := congrArg (fun s : String => s.data.take 4) h
  simp [textoAviso, assuntoDefeito, assuntoEntrega] at h1

/-- C2: when the defect rule wins and an operator number is configured,
`processarMensagem` posts exactly one message, to the operator, whose text is
the alert with the defect subject, the sender and the original text; that
text is not a delivery alert; the catalog client is not called: no upstream
request is made, the cache variables are unchanged and the trace holds only
the log line of the message and the events of that one send. -/
theorem processarMensagem_defeito_escala (rt : Runtime) (cfg : Config) (mundo : Mundo)
    (st : Estado) (telefone : JSVal) (texto owner : String)
    (hregra : regraVencedora (normalizarTexto rt texto) = some .defeito)
    (hcfg : cfg.OWNER_PHONE = some owner) (howner : owner ≠ "") :
    let saida := processarMensagem rt cfg mundo st telefone texto
    let aviso := "🔔 *" ++ "⚠️ CLIENTE COM DEFEITO/GARANTIA" ++ "*\n\n"
      ++ ("Telefone: " ++ telefone.ts rt ++ "\nMensagem: " ++ texto)
    saida.valor = .ok respostaDefeito
      ∧ saida.eventos.filter Evento.isPost = [.post (.str owner) aviso]
      ∧ (∀ d : String, aviso ≠ textoAviso assuntoEntrega d)
      ∧ saida.eventos.filter Evento.isGet = []
      ∧ saida.estado = st
      ∧ saida.eventos = logMensagem rt telefone texto
          :: enviarMensagem rt mundo.postOwner (.str owner) aviso := by
  intro saida aviso
  have hs : saida = Saida.apos [logMensagem rt telefone texto]
      (ramoDefeito rt cfg mundo st telefone texto) := by
    show processarMensagem rt cfg mundo st telefone texto = _
    rw [processarMensagem_eq_responder, hregra]
    rfl
  have hev : saida.eventos = logMensagem rt telefone texto
      :: enviarMensagem rt mundo.postOwner (.str owner) aviso := by
    rw [hs]
    show [logMensagem rt telefone texto] ++ avisarOwner rt cfg mundo.postOwner assuntoDefeito
      (detalhesAviso rt telefone texto) = _
    rw [avisarOwner_configurado rt cfg _ _ _ owner hcfg howner]
    rfl
  refine ⟨by rw [hs]; rfl, ?_, ?_, ?_, by rw [hs]; rfl, hev⟩
  · rw [hev, List.filter_cons, (enviarMensagem_posts rt _ _ _).1]
    simp [logMensagem, Evento.isPost]
  · intro d
    exact textoAviso_defeito_ne_entrega (detalhesAviso rt telefone texto) d
  · rw [hev, List.filter_cons, (enviarMensagem_posts rt _ _ _).2]
    simp [logMensagem, Evento.isGet]

/-- Witness of `processarMensagem_defeito_escala`: the example of the
specification with an operator configured. -/
theorem processarMensagem_defeito_escala_witness :
    regraVencedora (normalizarTexto refRuntime
        "tenho um problema com a entrega, qual o frete?") = some .defeito
      ∧ (processarMensagem refRuntime ⟨some "5511999990000"⟩
          ⟨7200000, .sucesso (some []), none, none⟩ ⟨[some ⟨some "Fone", some "10", some "2"⟩], 0⟩
          (.str "5511888880000")
          "tenho um problema com a entrega, qual o frete?").eventos.filter Evento.isPost
        = [.post (.str "5511999990000")
            ("🔔 *" ++ "⚠️ CLIENTE COM DEFEITO/GARANTIA" ++ "*\n\n"
              ++ ("Telefone: " ++ JSVal.ts refRuntime (.str "5511888880000") ++ "\nMensagem: "
                ++ "tenho um problema com a entrega, qual o frete?"))] :=
  ⟨by decide,
   (processarMensagem_defeito_escala refRuntime ⟨some "5511999990000"⟩
      ⟨7200000, .sucesso (some []), none, none⟩ ⟨[some ⟨some "Fone", some "10", some "2"⟩], 0⟩
      (.str "5511888880000") "tenho um problema com a entrega, qual o frete?" "5511999990000"
      (by decide) rfl (by decide)).2.1⟩

/-- C3: with `OWNER_PHONE` unset or empty, `avisarOwner` does nothing, and on
every text on which the defect or the delivery rule wins `processarMensagem`
posts no message, returns a reply (no exception), and that reply is the one
returned under any other configuration. -/
theorem processarMensagem_sem_owner (rt : Runtime) (cfg : Config) (mundo : Mundo)
    (st : Estado) (telefone : JSVal) (texto : String)
    (hcfg : cfg.OWNER_PHONE = none ∨ cfg.OWNER_PHONE = some "")
    (hregra : regraVencedora (normalizarTexto rt texto) = some .defeito
      ∨ regraVencedora (normalizarTexto rt texto) = some .entrega) :
    (∀ (resultado : Option String) (assunto detalhes : String),
        avisarOwner rt cfg resultado assunto detalhes = [])
      ∧ (processarMensagem rt cfg mundo st telefone texto).eventos
          = [logMensagem rt telefone texto]
      ∧ (processarMensagem rt cfg mundo st telefone texto).eventos.filter Evento.isPost = []
      ∧ (∃ resposta : String,
          (processarMensagem rt cfg mundo st telefone texto).valor = .ok resposta)
      ∧ (∀ (cfg2 : Config) (mundo2 : Mundo),
          (processarMensagem rt cfg2 mundo2 st telefone texto).valor
            = (processarMensagem rt cfg mundo st telefone texto).valor) := by
  have hav := avisarOwner_sem_owner rt cfg
  have hev : (processarMensagem rt cfg mundo st telefone texto).eventos
      = [logMensagem rt telefone texto] := by
    rw [processarMensagem_eq_responder]
    rcases hregra with h | h <;> rw [h]
    · show [logMensagem rt telefone texto] ++ avisarOwner rt cfg _ _ _ = _
      rw [hav _ _ _ hcfg]; rfl
    · show [logMensagem rt telefone texto] ++ avisarOwner rt cfg _ _ _ = _
      rw [hav _ _ _ hcfg]; rfl
  refine ⟨fun r a d => hav r a d hcfg, hev, ?_, ?_, ?_⟩
  · rw [hev]; simp [logMensagem, Evento.isPost]
  · rw [processarMensagem_eq_responder]
    rcases hregra with h | h <;> rw [h]
    · exact ⟨respostaDefeito, rfl⟩
    · exact ⟨respostaEntrega, rfl⟩
  · intro cfg2 mundo2
    rw [processarMensagem_eq_responder, processarMensagem_eq_responder]
    rcases hregra with h | h <;> rw [h] <;> rfl

/-- Witness of `processarMensagem_sem_owner`: a defect message with no
operator configured. -/
theorem processarMensagem_sem_owner_witness :
    (processarMensagem refRuntime ⟨none⟩ ⟨0, .falha "offline", some "recusado", none⟩
        Estado.inicial (.str "5511888880000") "Meu fone NÃO FUNCIONA").eventos.filter Evento.isPost
      = []
      ∧ (processarMensagem refRuntime ⟨some "5511999990000"⟩ ⟨5, .sucesso none, none, none⟩
          Estado.inicial (.str "5511888880000") "Meu fone NÃO FUNCIONA").valor
        = (processarMensagem refRuntime ⟨none⟩ ⟨0, .falha "offline", some "recusado", none⟩
            Estado.inicial (.str "5511888880000") "Meu fone NÃO FUNCIONA").valor :=
  have h := processarMensagem_sem_owner refRuntime ⟨none⟩
    ⟨0, .falha "offline", some "recusado", none⟩ Estado.inicial (.str "5511888880000")
    "Meu fone NÃO FUNCIONA" (Or.inl rfl) (Or.inl (by decide))
  ⟨h.2.2.1, h.2.2.2.2 ⟨some "5511999990000"⟩ ⟨5, .sucesso none, none, none⟩⟩

/-! ## Catalog cache -/

theorem cacheFresco_iff (janela agora : Int) (st : Estado) :
    cacheFresco janela agora st = true ↔
      st.produtosCache ≠ [] ∧ agora - st.ultimaAtualizacao < janela := by
  simp [cacheFresco, List.length_pos]

theorem buscarProdutosJanela_fresco (janela agora : Int) (rede : RespostaBling) (st : Estado)
    (h : cacheFresco janela agora st = true) :
    buscarProdutosJanela janela agora rede st
      = ⟨st.produtosCache, st, [.log "📦 Usando cache de produtos"]⟩ := by
  simp [buscarProdutosJanela, h]

theorem buscarProdutosJanela_gets (janela agora : Int) (rede : RespostaBling) (st : Estado)
    (h : cacheFresco janela agora st = false) :
    (buscarProdutosJanela janela agora rede st).eventos.filter Evento.isGet = [.get] := by
  simp only [buscarProdutosJanela, h]
  rcases rede with m | (_ | ps) <;> simp [Evento.isGet]

/-- C7: `buscarProdutosBling` returns the cached list with no upstream request
exactly when the cached list is non-empty and `agora - ultimaAtualizacao` is
strictly below the window; otherwise it makes exactly one request. After a
fetch at time 0 that stored a non-empty list, a read at `w - 1` makes no
request and reads at `w` and `w + 1` make one each, for every window `w`, the
window of the program being `CACHE_DURATION`. -/
theorem buscarProdutos_frescor (janela agora : Int) (rede : RespostaBling) (st : Estado) :
    (((buscarProdutosJanela janela agora rede st).valor = st.produtosCache
          ∧ (buscarProdutosJanela janela agora rede st).eventos.filter Evento.isGet = []) ↔
        (st.produtosCache ≠ [] ∧ agora - st.ultimaAtualizacao < janela))
      ∧ (¬ (st.produtosCache ≠ [] ∧ agora - st.ultimaAtualizacao < janela) →
          (buscarProdutosJanela janela agora rede st).eventos.filter Evento.isGet = [.get])
      ∧ (∀ (ps : List Item) (rede0 : RespostaBling), ps ≠ [] →
          let st0 := (buscarProdutosJanela janela 0 (.sucesso (some ps)) Estado.inicial).estado
          (buscarProdutosJanela janela (janela - 1) rede0 st0).eventos.filter Evento.isGet = []
            ∧ (buscarProdutosJanela janela (janela - 1) rede0 st0).valor = ps
            ∧ (buscarProdutosJanela janela janela rede0 st0).eventos.filter Evento.isGet = [.get]
            ∧ (buscarProdutosJanela janela (janela + 1) rede0 st0).eventos.filter Evento.isGet
                = [.get])
      ∧ buscarProdutosBling agora rede st = buscarProdutosJanela 3600000 agora rede st := by
  refine ⟨⟨?_, ?_⟩, ?_, ?_, rfl⟩
  · rintro ⟨-, hg⟩
    rw [← cacheFresco_iff]
    by_contra hf
    rw [Bool.not_eq_true] at hf
    rw [buscarProdutosJanela_gets janela agora rede st hf] at hg
    simp at hg
  · intro h
    rw [buscarProdutosJanela_fresco janela agora rede st ((cacheFresco_iff _ _ _).mpr h)]
    simp [Evento.isGet]
  · intro h
    rw [← cacheFresco_iff, Bool.not_eq_true] at h
    exact buscarProdutosJanela_gets janela agora rede st h
  · intro ps rede0 hps st0
    have hst0 : st0 = ⟨ps, 0⟩ := by
      show (buscarProdutosJanela janela 0 (.sucesso (some ps)) Estado.inicial).estado = _
      simp [buscarProdutosJanela, cacheFresco, Estado.inicial]
    have h1 : cacheFresco janela (janela - 1) st0 = true := by
      rw [cacheFresco_iff, hst0]; exact ⟨hps, by simp⟩
    have h2 : cacheFresco janela janela st0 = false := by
      rw [← Bool.not_eq_true, cacheFresco_iff, hst0]; simp
    have h3 : cacheFresco janela (janela + 1) st0 = false := by
      rw [← Bool.not_eq_true, cacheFresco_iff, hst0]; simp
    refine ⟨?_, ?_, buscarProdutosJanela_gets _ _ _ _ h2, buscarProdutosJanela_gets _ _ _ _ h3⟩
    · rw [buscarProdutosJanela_fresco _ _ _ _ h1]; simp [Evento.isGet]
    · rw [buscarProdutosJanela_fresco _ _ _ _ h1, hst0]

/-- Witness of `buscarProdutos_frescor`: with the window 1000 of the
specification, a fetch at 0, no request at 999, one request at 1000 and at
1001. -/
theorem buscarProdutos_frescor_witness :
    ([some ⟨some "Fone", some "10", some "2"⟩] : List Item) ≠ []
      ∧ (buscarProdutosJanela 1000 (1000 - 1) (.falha "offline")
          (buscarProdutosJanela 1000 0 (.sucesso (some [some ⟨some "Fone", some "10", some "2"⟩]))
            Estado.inicial).estado).eventos.filter Evento.isGet = []
      ∧ (buscarProdutosJanela 1000 (1000 + 1) (.falha "offline")
          (buscarProdutosJanela 1000 0 (.sucesso (some [some ⟨some "Fone", some "10", some "2"⟩]))
            Estado.inicial).estado).eventos.filter Evento.isGet = [.get] :=
  have h := (buscarProdutos_frescor 1000 0 (.falha "offline") Estado.inicial).2.2.1
    [some ⟨some "Fone", some "10", some "2"⟩] (.falha "offline") (by decide)
  ⟨by decide, h.1, h.2.2.2⟩

/-- C6: when the cache is not fresh, a rejected upstream request leaves the
cache variables unchanged and returns the cached list, and a resolved one
without a product list also leaves them unchanged but returns the empty list,
which differs from the cached list whenever that one is not empty. -/
theorem buscarProdutosBling_sem_produtos (agora : Int) (st : Estado) (mensagem : String)
    (h : cacheFresco CACHE_DURATION agora st = false) :
    (buscarProdutosBling agora (.falha mensagem) st).estado = st
      ∧ (buscarProdutosBling agora (.falha mensagem) st).valor = st.produtosCache
      ∧ (buscarProdutosBling agora (.sucesso none) st).estado = st
      ∧ (buscarProdutosBling agora (.sucesso none) st).valor = []
      ∧ (st.produtosCache ≠ [] →
          (buscarProdutosBling agora (.sucesso none) st).valor ≠ st.produtosCache) := by
  simp only [buscarProdutosBling, buscarProdutosJanela, h]
  refine ⟨rfl, rfl, rfl, rfl, fun hne heq => hne ?_⟩
  exact heq.symm

/-- Witness of `buscarProdutosBling_sem_produtos`: a stale cache of one
product and an upstream answer without `retorno`. -/
theorem buscarProdutosBling_sem_produtos_witness :
    cacheFresco CACHE_DURATION 3600000 ⟨[some ⟨some "Fone", some "10", some "2"⟩], 0⟩ = false
      ∧ (buscarProdutosBling 3600000 (.sucesso none)
          ⟨[some ⟨some "Fone", some "10", some "2"⟩], 0⟩).valor = []
      ∧ (buscarProdutosBling 3600000 (.falha "timeout")
          ⟨[some ⟨some "Fone", some "10", some "2"⟩], 0⟩).valor
        = [some ⟨some "Fone", some "10", some "2"⟩] :=
  have h := buscarProdutosBling_sem_produtos 3600000
    ⟨[some ⟨some "Fone", some "10", some "2"⟩], 0⟩ "timeout" (by decide)
  ⟨by decide, h.2.2.2.1, h.2.1⟩

theorem executar_invariante (cs : List Chamada) :
    ∀ (st : Estado) (escrita : Option (List Item × Int)),
      (match escrita with
        | none => st = Estado.inicial
        | some (ps, t) => st = ⟨ps, t⟩) →
      match (executar cs st escrita).2 with
        | none => (executar cs st escrita).1 = Estado.inicial
        | some (ps, t) => (executar cs st escrita).1 = ⟨ps, t⟩ := by
  induction cs with
  | nil => intro st escrita h; exact h
  | cons c cs ih =>
    intro st escrita h
    rw [executar]
    apply ih
    simp only [Chamada.escreve, buscarProdutosBling, buscarProdutosJanela]
    by_cases hf : cacheFresco CACHE_DURATION c.agora st = true
    · simp only [hf, if_true]; exact h
    · simp only [hf]
      rcases hr : c.rede with m | (_ | ps)
      · exact h
      · exact h
      · rfl

/-- C10, as the code has it: in every state reachable from the initial state
by calls of `buscarProdutosBling`, the cache variables hold the list and the
time stored by the most recent call that wrote them, and the initial values
while no call has written; so the cached list is empty only if no fetch has
written the cache yet or the most recent write stored an empty list. -/
theorem cache_ultima_escrita (cs : List Chamada) :
    (match (executar cs Estado.inicial none).2 with
      | none => (executar cs Estado.inicial none).1 = Estado.inicial
      | some (ps, t) => (executar cs Estado.inicial none).1 = ⟨ps, t⟩)
      ∧ ((executar cs Estado.inicial none).1.produtosCache = [] →
          (executar cs Estado.inicial none).2 = none
            ∨ ∃ t, (executar cs Estado.inicial none).2 = some ([], t)) := by
  have h := executar_invariante cs Estado.inicial none rfl
  refine ⟨h, fun he => ?_⟩
  rcases hx : (executar cs Estado.inicial none).2 with _ | ⟨ps, t⟩
  · exact Or.inl rfl
  · right
    rw [hx] at h
    simp only at h
    rw [h] at he
    exact ⟨t, by rw [show ps = [] from he]⟩

/-- Witness of `cache_ultima_escrita`: a fetch that stores one product, then
a later fetch that stores the empty list. -/
theorem cache_ultima_escrita_witness :
    (executar [⟨10, .sucesso (some [some ⟨some "Fone", some "10", some "2"⟩])⟩,
        ⟨3600010, .sucesso (some [])⟩] Estado.inicial none).1.produtosCache = []
      ∧ ((executar [⟨10, .sucesso (some [some ⟨some "Fone", some "10", some "2"⟩])⟩,
          ⟨3600010, .sucesso (some [])⟩] Estado.inicial none).2 = none
        ∨ ∃ t, (executar [⟨10, .sucesso (some [some ⟨some "Fone", some "10", some "2"⟩])⟩,
          ⟨3600010, .sucesso (some [])⟩] Estado.inicial none).2 = some ([], t)) :=
  ⟨by decide,
   (cache_ultima_escrita [⟨10, .sucesso (some [some ⟨some "Fone", some "10", some "2"⟩])⟩,
      ⟨3600010, .sucesso (some [])⟩]).2 (by decide)⟩

/-- C10 fails as stated: a fetch answered with a well-formed envelope whose
`produtos` list is empty writes the cache and leaves the cached list empty,
also after a non-empty list had been cached. -/
theorem cache_vazio_apos_escrita :
    ((executar [⟨5, .sucesso (some [])⟩] Estado.inicial none).2 = some ([], 5)
        ∧ (executar [⟨5, .sucesso (some [])⟩] Estado.inicial none).1 = ⟨[], 5⟩)
      ∧ ((executar [⟨10, .sucesso (some [some ⟨some "Fone", some "10", some "2"⟩])⟩,
          ⟨3600010, .sucesso (some [])⟩] Estado.inicial none).2 = some ([], 3600010)
        ∧ (executar [⟨10, .sucesso (some [some ⟨some "Fone", some "10", some "2"⟩])⟩,
          ⟨3600010, .sucesso (some [])⟩] Estado.inicial none).1 = ⟨[], 3600010⟩) := by
  decide

/-! ## Stock listing -/

theorem foldlM_passoEstoque_some (rt : Runtime) (ps : List Produto) :
    ∀ (resposta : String) (tem : Bool),
      (ps.map some).foldlM (passoEstoque rt) (resposta, tem)
        = .ok (resposta ++ concatenar ((ps.filter fun p => estoqueDe rt p > 0).map (linhaEstoque rt)),
            tem || !(ps.filter fun p => estoqueDe rt p > 0).isEmpty) := by
  induction ps with
  | nil =>
    intro resposta tem
    simp [concatenar, pure, Except.pure]
  | cons p ps ih =>
    intro resposta tem
    rw [List.map_cons, List.foldlM_cons]
    by_cases hp : estoqueDe rt p > 0
    · simp only [passoEstoque, hp, if_true, bind, Except.bind]
      rw [ih, List.filter_cons_of_pos (by simpa using hp)]
      simp [concatenar, String.append_assoc]
    · simp only [passoEstoque, hp, if_false, bind, Except.bind]
      rw [ih, List.filter_cons_of_neg (by simpa using hp)]

theorem respostaEstoque_some (rt : Runtime) (ps : List Produto) (hne : ps ≠ []) :
    respostaEstoque rt (ps.map some) = .ok (listagemEstoque rt ps) := by
  have hlen : ¬ (ps.map some).length = 0 := by
    simpa [List.length_eq_zero] using hne
  simp only [respostaEstoque, hlen, if_false, ← List.map_take, foldlM_passoEstoque_some,
    listagemEstoque, produtosEmEstoque]
  by_cases he : (List.filter (fun p => decide (estoqueDe rt p > 0)) (List.take 5 ps)) = []
  · simp [he]
  · simp [he, List.isEmpty_iff]

/-- C4: when the stock rule wins and the catalog client returns a non-empty
sequence of products, the reply lists, each with name, price and quantity,
exactly the products among the first five with strictly positive parsed
stock, once each and in their original order; it is the out-of-stock message
when none of the first five has stock; and it does not depend on the
products after the fifth. -/
theorem processarMensagem_estoque_lista (rt : Runtime) (cfg : Config) (mundo : Mundo)
    (st : Estado) (telefone : JSVal) (texto : String) (ps : List Produto)
    (hregra : regraVencedora (normalizarTexto rt texto) = some .estoque)
    (hcat : (buscarProdutosBling mundo.agora mundo.bling st).valor = ps.map some)
    (hne : ps ≠ []) :
    (processarMensagem rt cfg mundo st telefone texto).valor
        = .ok (if (ps.take 5).filter (fun p => estoqueDe rt p > 0) = [] then respostaSemEstoque
            else "📦 *Produtos em Estoque:*\n\n"
              ++ concatenar (((ps.take 5).filter fun p => estoqueDe rt p > 0).map fun p =>
                  "✅ *" ++ campo p.nome ++ "*\n" ++ "   Preço: R$ " ++ precoDe rt p ++ "\n"
                    ++ "   Estoque: " ++ rt.numberToString (estoqueDe rt p) ++ " unidades\n\n")
              ++ "Quer saber mais sobre algum produto? 😊")
      ∧ List.Sublist ((ps.take 5).filter fun p => estoqueDe rt p > 0) ps
      ∧ (∀ p, p ∈ (ps.take 5).filter (fun p => estoqueDe rt p > 0) ↔
          p ∈ ps.take 5 ∧ 0 < estoqueDe rt p)
      ∧ (∀ ps2 : List Produto, ps2.take 5 = ps.take 5 →
          respostaEstoque rt (ps2.map some) = respostaEstoque rt (ps.map some)) := by
  refine ⟨?_, ?_, ?_, ?_⟩
  · rw [processarMensagem_eq_responder, hregra]
    show respostaEstoque rt (buscarProdutosBling mundo.agora mundo.bling st).valor = _
    rw [hcat, respostaEstoque_some rt ps hne]
    rfl
  · exact (List.filter_sublist _).trans (List.take_sublist 5 ps)
  · intro p
    simp [List.mem_filter]
  · intro ps2 h2
    have hne2 : ps2 ≠ [] := by
      intro h0
      rw [h0] at h2
      cases ps with
      | nil => exact hne rfl
      | cons x xs => simp at h2
    rw [respostaEstoque_some rt ps hne, respostaEstoque_some rt ps2 hne2]
    simp only [listagemEstoque, produtosEmEstoque, h2]

/-- Witness of `processarMensagem_estoque_lista`: six products of which the
first, third, fifth and sixth have stock; the reply lists the first, third
and fifth. -/
theorem processarMensagem_estoque_lista_witness :
    (processarMensagem refRuntime ⟨none⟩
        ⟨0, .sucesso (some ([⟨some "Fone", some "19.90", some "3"⟩,
          ⟨some "Cabo", some "5", some "0"⟩, ⟨some "Mouse", some "45.5", some "12"⟩,
          ⟨some "Hub", some "30", some "esgotado"⟩, ⟨some "Teclado", some "120.00", some "1"⟩,
          ⟨some "Webcam", some "99", some "7"⟩].map some)), none, none⟩
        Estado.inicial (.str "5511888880000") "O que tem em estoque?").valor
      = .ok ("📦 *Produtos em Estoque:*\n\n"
          ++ "✅ *Fone*\n   Preço: R$ 19.90\n   Estoque: 3 unidades\n\n"
          ++ "✅ *Mouse*\n   Preço: R$ 45.50\n   Estoque: 12 unidades\n\n"
          ++ "✅ *Teclado*\n   Preço: R$ 120.00\n   Estoque: 1 unidades\n\n"
          ++ "Quer saber mais sobre algum produto? 😊") :=
  ((processarMensagem_estoque_lista refRuntime ⟨none⟩
      ⟨0, .sucesso (some ([⟨some "Fone", some "19.90", some "3"⟩,
        ⟨some "Cabo", some "5", some "0"⟩, ⟨some "Mouse", some "45.5", some "12"⟩,
        ⟨some "Hub", some "30", some "esgotado"⟩, ⟨some "Teclado", some "120.00", some "1"⟩,
        ⟨some "Webcam", some "99", some "7"⟩].map some)), none, none⟩
      Estado.inicial (.str "5511888880000") "O que tem em estoque?"
      [⟨some "Fone", some "19.90", some "3"⟩,
        ⟨some "Cabo", some "5", some "0"⟩, ⟨some "Mouse", some "45.5", some "12"⟩,
        ⟨some "Hub", some "30", some "esgotado"⟩, ⟨some "Teclado", some "120.00", some "1"⟩,
        ⟨some "Webcam", some "99", some "7"⟩]
      (by decide) (by decide) (by decide)).1).trans rfl

/-! ## Malformed numeric fields -/

/-- C5, evaluated on the code: the stock field is coerced (a non-numeric
stock counts as zero and the product is not listed), but a price field that
is not numeric or is absent is printed as `NaN`, not as `0.00`, in the stock
reply and in the price reply. -/
theorem preco_nao_numerico_imprime_NaN :
    (processarMensagem refRuntime ⟨none⟩
        ⟨0, .sucesso (some [some ⟨some "Fone", some "abc", some "3"⟩,
          some ⟨some "Cabo", none, some "2"⟩, some ⟨some "Hub", some "30", some "muitos"⟩]),
          none, none⟩
        Estado.inicial (.str "5511888880000") "tem em estoque?").valor
      = .ok ("📦 *Produtos em Estoque:*\n\n"
          ++ "✅ *Fone*\n   Preço: R$ NaN\n   Estoque: 3 unidades\n\n"
          ++ "✅ *Cabo*\n   Preço: R$ NaN\n   Estoque: 2 unidades\n\n"
          ++ "Quer saber mais sobre algum produto? 😊")
      ∧ (processarMensagem refRuntime ⟨none⟩
          ⟨0, .sucesso (some [some ⟨some "Fone", some "abc", some "3"⟩,
            some ⟨some "Cabo", none, some "2"⟩, some ⟨some "Hub", some "30", some "muitos"⟩]),
            none, none⟩
          Estado.inicial (.str "5511888880000") "qual o valor?").valor
        = .ok ("💰 *Nossos Preços:*\n\n"
            ++ "• *Fone*: R$ NaN\n" ++ "• *Cabo*: R$ NaN\n" ++ "• *Hub*: R$ 30.00\n"
            ++ "\nQuer mais informações? 😊") := by
  constructor <;> rfl

/-! ## Text normaliser -/

theorem dropWhile_eq_self_of_head {p : Char → Bool} (l : List Char)
    (h : ∀ c, l.head? = some c → p c = false) : l.dropWhile p = l := by
  cases l with
  | nil => rfl
  | cons c cs => simp [List.dropWhile, h c rfl]

theorem trim_eq_self (s : String) (h : bordaBranca s = false) : trim s = s := by
  simp only [bordaBranca, Bool.or_eq_false_iff] at h
  have h1 : s.data.dropWhile isWhiteSpace = s.data :=
    dropWhile_eq_self_of_head _ (fun c hc => by rw [hc] at h; exact h.1)
  have h2 : s.data.reverse.dropWhile isWhiteSpace = s.data.reverse :=
    dropWhile_eq_self_of_head _ (fun c hc => by
      rw [List.head?_reverse] at hc
      rw [hc] at h; exact h.2)
  simp only [trim, h1, h2, List.reverse_reverse]

theorem stripMarks_stripMarks (s : String) : stripMarks (stripMarks s) = stripMarks s := by
  simp [stripMarks, List.filter_filter]

set_option maxRecDepth 1000000 in
theorem ref_tabela_latin1 : ∀ n : Nat, n < 256 →
    (refLowerChar (Char.ofNat n)).toNat < 256
      ∧ refLowerChar (refLowerChar (Char.ofNat n)) = refLowerChar (Char.ofNat n)
      ∧ (refLowerChar (Char.ofNat n) = Char.ofNat n →
          (refDecompose (Char.ofNat n)).filter (fun c => !isCombiningMark c)
              = [refBase (Char.ofNat n)]
            ∧ refLowerChar (refBase (Char.ofNat n)) = refBase (Char.ofNat n)
            ∧ refDecompose (refBase (Char.ofNat n)) = [refBase (Char.ofNat n)]
            ∧ isWhiteSpace (refBase (Char.ofNat n)) = isWhiteSpace (Char.ofNat n)) := by
  decide

theorem ref_tabela_char (c : Char) (h : c.toNat < 256) :
    (refLowerChar c).toNat < 256
      ∧ refLowerChar (refLowerChar c) = refLowerChar c
      ∧ (refLowerChar c = c →
          (refDecompose c).filter (fun c => !isCombiningMark c) = [refBase c]
            ∧ refLowerChar (refBase c) = refBase c
            ∧ refDecompose (refBase c) = [refBase c]
            ∧ isWhiteSpace (refBase c) = isWhiteSpace c) := by
  have := ref_tabela_latin1 c.toNat h
  rwa [Char.ofNat_toNat] at this

theorem getLast?_dropWhile {p : Char → Bool} (l : List Char) :
    (l.dropWhile p).getLast? = none ∨ (l.dropWhile p).getLast? = l.getLast? := by
  induction l with
  | nil => left; rfl
  | cons a t ih =>
    by_cases ha : p a = true
    · rw [List.dropWhile_cons_of_pos ha]
      rcases ih with h | h
      · exact Or.inl h
      · cases t with
        | nil => left; rfl
        | cons b u => right; rw [h, List.getLast?_cons_cons]
    · right; rw [List.dropWhile_cons_of_neg ha]

theorem trim_bordas (l : List Char) :
    (∀ c, ((l.dropWhile isWhiteSpace).reverse.dropWhile isWhiteSpace).reverse.head? = some c →
        isWhiteSpace c = false)
      ∧ (∀ c, ((l.dropWhile isWhiteSpace).reverse.dropWhile isWhiteSpace).reverse.getLast? = some c →
        isWhiteSpace c = false) := by
  constructor
  · intro c hc
    rw [List.head?_reverse] at hc
    rcases getLast?_dropWhile (p := isWhiteSpace) (l.dropWhile isWhiteSpace).reverse with h | h
    · rw [h] at hc; cases hc
    · rw [h, List.getLast?_reverse] at hc
      have := List.head?_dropWhile_not isWhiteSpace l
      rw [hc] at this
      exact this
  · intro c hc
    rw [List.getLast?_reverse] at hc
    have := List.head?_dropWhile_not isWhiteSpace (l.dropWhile isWhiteSpace).reverse
    rw [hc] at this
    exact this

theorem mem_trim (l : List Char) (c : Char)
    (hc : c ∈ ((l.dropWhile isWhiteSpace).reverse.dropWhile isWhiteSpace).reverse) : c ∈ l := by
  rw [List.mem_reverse] at hc
  have h1 := (List.dropWhile_suffix isWhiteSpace).subset hc
  rw [List.mem_reverse] at h1
  exact (List.dropWhile_suffix isWhiteSpace).subset h1

theorem ref_strip_nfd (z : List Char)
    (hz : ∀ c ∈ z, c.toNat < 256 ∧ refLowerChar c = c) :
    (z.flatMap refDecompose).filter (fun c => !isCombiningMark c) = z.map refBase
      ∧ (z.map refBase).map refLowerChar = z.map refBase
      ∧ (z.map refBase).flatMap refDecompose = z.map refBase := by
  induction z with
  | nil => simp
  | cons c t ih =>
    have hc := hz c (List.mem_cons_self c t)
    have ht := ih (fun d hd => hz d (List.mem_cons_of_mem c hd))
    have htab := (ref_tabela_char c hc.1).2.2 hc.2
    refine ⟨?_, ?_, ?_⟩
    · rw [List.flatMap_cons, List.filter_append, htab.1, ht.1]; rfl
    · rw [List.map_cons, List.map_cons, htab.2.1, ht.2.1]
    · rw [List.map_cons, List.flatMap_cons, htab.2.2.1, ht.2.2]; rfl

theorem normalizarTexto_fixo (rt : Runtime) (x : String)
    (hborda : bordaBranca (normalizarTexto rt x) = false)
    (hlower : rt.toLowerCase (normalizarTexto rt x) = normalizarTexto rt x)
    (hnfd : rt.normalizeNFD (normalizarTexto rt x) = normalizarTexto rt x) :
    normalizarTexto rt (normalizarTexto rt x) = normalizarTexto rt x := by
  generalize hy : normalizarTexto rt x = y at *
  have hs : stripMarks y = y := by
    rw [← hy, normalizarTexto, stripMarks_stripMarks]
  show stripMarks (rt.normalizeNFD (trim (rt.toLowerCase y))) = y
  rw [hlower, trim_eq_self y hborda, hnfd, hs]

theorem normalizarTexto_ref_latin1 (x : String) (hx : ∀ c ∈ x.data, c.toNat < 256) :
    bordaBranca (normalizarTexto refRuntime x) = false
      ∧ refRuntime.toLowerCase (normalizarTexto refRuntime x) = normalizarTexto refRuntime x
      ∧ refRuntime.normalizeNFD (normalizarTexto refRuntime x) = normalizarTexto refRuntime x := by
  have hz : ∀ c ∈ (((x.data.map refLowerChar).dropWhile isWhiteSpace).reverse.dropWhile
      isWhiteSpace).reverse, c.toNat < 256 ∧ refLowerChar c = c := by
    intro c hc
    have h1 := mem_trim _ c hc
    rw [List.mem_map] at h1
    obtain ⟨d, hd, rfl⟩ := h1
    exact ⟨(ref_tabela_char d (hx d hd)).1, (ref_tabela_char d (hx d hd)).2.1⟩
  have hb := trim_bordas (x.data.map refLowerChar)
  have hn : normalizarTexto refRuntime x = ⟨((((x.data.map refLowerChar).dropWhile
      isWhiteSpace).reverse.dropWhile isWhiteSpace).reverse).map refBase⟩ := by
    show (⟨((((x.data.map refLowerChar).dropWhile isWhiteSpace).reverse.dropWhile
      isWhiteSpace).reverse.flatMap refDecompose).filter (fun c => !isCombiningMark c)⟩
        : String) = _
    rw [(ref_strip_nfd _ hz).1]
  rw [hn]
  generalize (((x.data.map refLowerChar).dropWhile isWhiteSpace).reverse.dropWhile
      isWhiteSpace).reverse = z at hz hb
  have hr := ref_strip_nfd z hz
  refine ⟨?_, ?_, ?_⟩
  · have hws : ∀ c ∈ z, isWhiteSpace (refBase c) = isWhiteSpace c := fun c hc =>
      ((ref_tabela_char c (hz c hc).1).2.2 (hz c hc).2).2.2.2
    simp only [bordaBranca, List.head?_map, List.getLast?_map, Bool.or_eq_false_iff]
    constructor
    · cases hh : z.head? with
      | none => rfl
      | some c =>
        show isWhiteSpace (refBase c) = false
        rw [hws c (List.mem_of_mem_head? hh)]
        exact hb.1 c hh
    · cases hl : z.getLast? with
      | none => rfl
      | some c =>
        show isWhiteSpace (refBase c) = false
        rw [hws c (List.mem_of_getLast?_eq_some hl)]
        exact hb.2 c hl
  · show (⟨(z.map refBase).map refLowerChar⟩ : String) = _
    rw [hr.2.1]
  · show (⟨(z.map refBase).flatMap refDecompose⟩ : String) = _
    rw [hr.2.2]

/-- C8, as the code has it: `normalizarTexto` applied to a normalised text
`y = normalizarTexto x` returns `y` whenever `y` neither begins nor ends
with white space and is left unchanged by `toLowerCase` and by
`normalize('NFD')`; on the reference runtime this is the case for every text
`x` of Basic Latin and Latin-1 characters. -/
theorem normalizarTexto_idempotente (rt : Runtime) (x : String) :
    (bordaBranca (normalizarTexto rt x) = false →
        rt.toLowerCase (normalizarTexto rt x) = normalizarTexto rt x →
        rt.normalizeNFD (normalizarTexto rt x) = normalizarTexto rt x →
        normalizarTexto rt (normalizarTexto rt x) = normalizarTexto rt x)
      ∧ ((∀ c ∈ x.data, c.toNat < 256) →
          normalizarTexto refRuntime (normalizarTexto refRuntime x)
            = normalizarTexto refRuntime x) := by
  refine ⟨normalizarTexto_fixo rt x, fun hx => ?_⟩
  have h := normalizarTexto_ref_latin1 x hx
  exact normalizarTexto_fixo refRuntime x h.1 h.2.1 h.2.2

/-- Witness of `normalizarTexto_idempotente`: the example of the
specification. -/
theorem normalizarTexto_idempotente_witness :
    normalizarTexto refRuntime "NÃO Funciona " = "nao funciona"
      ∧ normalizarTexto refRuntime (normalizarTexto refRuntime "NÃO Funciona ")
        = normalizarTexto refRuntime "NÃO Funciona " :=
  ⟨by decide,
   (normalizarTexto_idempotente refRuntime "NÃO Funciona ").1 (by decide) (by decide)
     (by decide)⟩

/-- C8 fails as stated: on a combining acute accent followed by a space and
a letter, the first pass deletes the accent and leaves the space at the
head, and the second pass trims it. -/
theorem normalizarTexto_nao_idempotente :
    normalizarTexto refRuntime "\u0301 a" = " a"
      ∧ normalizarTexto refRuntime (normalizarTexto refRuntime "\u0301 a") = "a"
      ∧ normalizarTexto refRuntime (normalizarTexto refRuntime "\u0301 a")
        ≠ normalizarTexto refRuntime "\u0301 a" := by
  decide

/-! ## Webhook handler -/

/-- C9, evaluated on the code: with `object` equal to
`whatsapp_business_account`, a body with no `entry`, an empty `entry` list,
an empty `changes` list, no `value`, an empty `messages` list or a first
message without `text` makes the handler throw a `TypeError` before any
status is sent; only a body of another `object` or a `value` without
`messages` is acknowledged with 200. -/
theorem postWebhook_payload_malformado (rt : Runtime) (cfg : Config) (mundo : Mundo)
    (st : Estado) :
    (postWebhook rt cfg mundo st
        (.obj [("object", .str "whatsapp_business_account")])).valor = .error .typeError
      ∧ (postWebhook rt cfg mundo st
        (.obj [("object", .str "whatsapp_business_account"), ("entry", .arr [])])).valor
          = .error .typeError
      ∧ (postWebhook rt cfg mundo st
        (.obj [("object", .str "whatsapp_business_account"),
          ("entry", .arr [.obj [("changes", .arr [])]])])).valor = .error .typeError
      ∧ (postWebhook rt cfg mundo st
        (.obj [("object", .str "whatsapp_business_account"),
          ("entry", .arr [.obj [("changes", .arr [.obj []])]])])).valor = .error .typeError
      ∧ (postWebhook rt cfg mundo st
        (.obj [("object", .str "whatsapp_business_account"),
          ("entry", .arr [.obj [("changes", .arr [.obj [("value",
            .obj [("messages", .arr [])])]])]])])).valor = .error .typeError
      ∧ (postWebhook rt cfg mundo st
        (.obj [("object", .str "whatsapp_business_account"),
          ("entry", .arr [.obj [("changes", .arr [.obj [("value",
            .obj [("messages", .arr [.obj [("from", .str "5511888880000")]])])]])]])])).valor
          = .error .typeError
      ∧ (postWebhook rt cfg mundo st (.obj [("object", .str "page")])).valor = .ok 200
      ∧ (postWebhook rt cfg mundo st
        (.obj [("object", .str "whatsapp_business_account"),
          ("entry", .arr [.obj [("changes", .arr [.obj [("value",
            .obj [("statuses", .arr [])])]])]])])).valor = .ok 200 := by
  refine ⟨?_, ?_, ?_, ?_, ?_, ?_, ?_, ?_⟩ <;> rfl

end BotBling
